import Mathlib

/-!
Shallow embedding of the ESP32 WiFi-Thermometer firmware core
(`src/main.cpp` of the DS18B20/WROOM build, together with `include/config.h`).

The firmware runs one `setup()` pass per wake from deep sleep and never runs
`loop()`.  We model:

* the RTC-memory state that survives deep sleep (`bootCount`, `timeSynced`)
  as `Rtc`,
* the LittleFS data file and log file as lists of structured lines,
* the outside world the cycle interacts with (sensor, WiFi, NTP, HTTP,
  file-open outcomes) as an `Env` record of per-cycle oracle values,
* the observable effects of one cycle (LED blinks, network attempts, file
  writes, entering deep sleep) as a trace of `Action`s.

Log lines are modelled by the structured message they carry (`LogMsg`)
rather than the rendered text; CSV lines likewise (`CsvLine`).  The
`serial` field of `Sys` records every `logMessage` call (the line always
reaches the serial console); the log *file* only receives the line when the
append-open succeeds (`Env.logOpenOk`), in which case the write also shows
up in the trace as storage activity.

Temperatures are modelled as rationals (the DS18B20 reports multiples of
1/16 degC); the `NAN` marker used by `readTemperature` for an invalid
reading is modelled as `Option.none`.
-/

namespace Thermo

/-- Sensor temperatures in degrees Celsius. -/
abbrev Temp := ℚ

/-- `DEVICE_DISCONNECTED_C` from the DallasTemperature library: the sentinel
`getTempCByIndex` returns for a disconnected device. -/
def DEVICE_DISCONNECTED_C : Temp := -127

/-- `NTP_SYNC_INTERVAL_BOOTS` from `config.h`: re-sync NTP every N wake cycles. -/
def NTP_SYNC_INTERVAL_BOOTS : Nat := 20

/-- `READING_INTERVAL_SEC` from `config.h`: deep-sleep duration in seconds. -/
def READING_INTERVAL_SEC : Nat := 60

/-- Structured form of the messages the firmware passes to `logMessage`. -/
inductive LogMsg where
  | connecting
  | wifiTimeout
  | wifiConnected
  | timeSyncedAt (ts : String)
  | ntpFailed
  | sensorDisconnected
  | sensorOutOfRange (t : Temp)
  | dataOpenFailed
  | sent (t : Temp) (boot : Nat)
  | serverError (code : Int)
  | noSensor
  | noWifiStoringLocally
  | storedLocally (t : Temp)
  | sleeping (sec : Nat)
  deriving DecidableEq

/-- A line of the CSV data file `/temperature_data.csv`: the header written on
file creation, or one data row `timestamp,temperature`. -/
inductive CsvLine where
  | header
  | row (timestamp : String) (tempC : Temp)
  deriving DecidableEq

/-- `true` exactly on data rows of the CSV file. -/
def CsvLine.isRow : CsvLine → Bool
  | .header => false
  | .row _ _ => true

/-- Observable effects of one wake cycle. -/
inductive Action where
  | blink (times delayMs : Nat)
  | mount
  | connectAttempt
  | ntpConfig
  | httpPost (tempC : Temp) (timestamp : String)
  | logAppend (m : LogMsg)
  | dataWrite (lines : List CsvLine)
  | sleep
  deriving DecidableEq

/-- `true` exactly on LED-blink actions. -/
def Action.isBlink : Action → Bool
  | .blink _ _ => true
  | _ => false

/-- The `RTC_DATA_ATTR` globals of `main.cpp`: they survive deep sleep but
not a full power loss. -/
structure Rtc where
  bootCount : Nat
  timeSynced : Bool
  deriving DecidableEq

/-- Per-cycle oracle for everything outside the firmware core: the sensor
bus, the WiFi association, the NTP polls, the wall clock, the filesystem
open outcomes and the HTTP transport.

* `ntpPollOk k` is the result of the `k`-th `getLocalTime` call inside
  `syncTime`'s retry loop (`k = 0, 1, ...`).
* `clockAvailable`/`clockString` model `getLocalTime`/`strftime` outside
  that loop (used by `getTimestamp`).
* `httpResponseCode` is what `http.POST` returns; the HTTPClient library
  reports a transport fault as a negative code, so any value other than
  `200` covers both non-200 statuses and transport faults. -/
structure Env where
  sensorDeviceCount : Nat
  alreadyConnected : Bool
  wifiConnects : Bool
  ntpPollOk : Nat → Bool
  clockAvailable : Bool
  clockString : String
  rawTemp : Temp
  dataOpenOk : Bool
  logOpenOk : Bool
  httpResponseCode : Int

/-- Full machine state threaded through one wake cycle: the RTC memory, the
two LittleFS files, the serial console output of the cycle and the trace of
observable actions of the cycle.  `dataFile = none` means the data file does
not exist yet. -/
structure Sys where
  rtc : Rtc
  dataFile : Option (List CsvLine)
  logFile : List LogMsg
  serial : List LogMsg
  trace : List Action

/-- `logMessage` of `main.cpp`: the line is always printed to serial; it is
appended to the log file only when the append-open succeeds, and a successful
append is storage activity recorded in the trace. -/
def logMessage (e : Env) (m : LogMsg) (s : Sys) : Sys :=
  let s1 := { s with serial := s.serial ++ [m] }
  if e.logOpenOk then
    { s1 with logFile := s1.logFile ++ [m], trace := s1.trace ++ [Action.logAppend m] }
  else s1

/-- `ledBlink` of `main.cpp`, recorded as a single trace action carrying the
blink count and per-blink delay. -/
def ledBlinkS (times delayMs : Nat) (s : Sys) : Sys :=
  { s with trace := s.trace ++ [Action.blink times delayMs] }

/-- `connectWiFi` of `main.cpp`: immediate success when already associated;
otherwise log, attempt the join (bounded by `WIFI_TIMEOUT_MS`, abstracted to
the oracle `e.wifiConnects`), and on success log the network and blink twice,
on timeout log the timeout and fail. -/
def connectWiFi (e : Env) (s : Sys) : Bool × Sys :=
  if e.alreadyConnected then (true, s)
  else
    let s1 := logMessage e LogMsg.connecting s
    let s2 := { s1 with trace := s1.trace ++ [Action.connectAttempt] }
    if e.wifiConnects then
      (true, ledBlinkS 2 100 (logMessage e LogMsg.wifiConnected s2))
    else
      (false, logMessage e LogMsg.wifiTimeout s2)

/-- The retry loop of `syncTime`:
`while (!getLocalTime(&timeinfo) && retries < 10) { delay(500); retries++; }`.
Returns the final value of `retries`.  `retries` never exceeds 10, so the
loop runs at most 11 iterations; the structural fuel argument (called with
fuel 11) makes that bound explicit. -/
def syncLoopAux (poll : Nat → Bool) : Nat → Nat → Nat
  | 0, retries => retries
  | fuel + 1, retries =>
    if poll retries then retries
    else if retries < 10 then syncLoopAux poll fuel (retries + 1)
    else retries

/-- `syncTime` of `main.cpp`.  The C++ function returns `void`; its (unit)
return value is the first component.  `configTime` is recorded as the
`ntpConfig` trace action; if the loop left `retries < 10` the persistent
`timeSynced` flag is set and the resulting timestamp logged, otherwise the
failure is logged and the flag is left untouched. -/
def syncTime (e : Env) (s : Sys) : Unit × Sys :=
  let s1 := { s with trace := s.trace ++ [Action.ntpConfig] }
  let retries := syncLoopAux e.ntpPollOk 11 0
  if retries < 10 then
    let s2 := { s1 with rtc := { s1.rtc with timeSynced := true } }
    ((), logMessage e (LogMsg.timeSyncedAt e.clockString) s2)
  else
    ((), logMessage e LogMsg.ntpFailed s1)

/-- `getTimestamp` of `main.cpp`: the formatted wall-clock time when
`getLocalTime` succeeds, otherwise the fallback token `boot-<bootCount>`. -/
def getTimestamp (e : Env) (bootCount : Nat) : String :=
  if e.clockAvailable then e.clockString else "boot-" ++ toString bootCount

/-- `readTemperature` of `main.cpp`: after the discarded warm-up conversion,
the definitive reading is `e.rawTemp`; the disconnected sentinel and values
outside -55..125 degC yield `none` (the code's `NAN`) plus a logged sensor
error, anything else is returned unchanged. -/
def readTemperature (e : Env) (s : Sys) : Option Temp × Sys :=
  let temp := e.rawTemp
  if temp = DEVICE_DISCONNECTED_C then
    (none, logMessage e LogMsg.sensorDisconnected s)
  else if temp < -55 ∨ temp > 125 then
    (none, logMessage e (LogMsg.sensorOutOfRange temp) s)
  else
    (some temp, s)

/-- `storeReading` of `main.cpp`: check existence, open for append (failure
logs an error and drops the row), write the header first if the file did not
exist, then append the row. -/
def storeReading (e : Env) (timestamp : String) (tempC : Temp) (s : Sys) : Sys :=
  let fileExists := s.dataFile.isSome
  if e.dataOpenOk then
    let newLines :=
      (if fileExists then ([] : List CsvLine) else [CsvLine.header]) ++
        [CsvLine.row timestamp tempC]
    { s with
      dataFile := some (s.dataFile.getD [] ++ newLines),
      trace := s.trace ++ [Action.dataWrite newLines] }
  else
    logMessage e LogMsg.dataOpenFailed s

/-- `sendToServer` of `main.cpp`: one HTTPS POST of the reading, success
exactly on response code 200 (logged as a `sent` line with the boot count),
anything else logged as `serverError` with the code. -/
def sendToServer (e : Env) (tempC : Temp) (timestamp : String) (s : Sys) : Bool × Sys :=
  let s1 := { s with trace := s.trace ++ [Action.httpPost tempC timestamp] }
  if e.httpResponseCode = 200 then
    (true, logMessage e (LogMsg.sent tempC s1.rtc.bootCount) s1)
  else
    (false, logMessage e (LogMsg.serverError e.httpResponseCode) s1)

/-- `goToSleep` of `main.cpp`: log the sleep line, tear down WiFi, arm the
wake timer and enter deep sleep (the terminal `sleep` action). -/
def goToSleep (e : Env) (s : Sys) : Sys :=
  let s1 := logMessage e (LogMsg.sleeping READING_INTERVAL_SEC) s
  { s1 with trace := s1.trace ++ [Action.sleep] }

/-- `setup` of `main.cpp`: the whole wake cycle.  Increment the persistent
boot counter, startup blink, mount LittleFS, then the early-exit branches of
the source in order: no sensor found (five fast blinks, sleep); WiFi failure
(read and store locally if valid, three fast blinks, sleep); otherwise
conditional NTP re-sync, read, store, send, outcome blink, sleep. -/
def setup (e : Env) (s0 : Sys) : Sys :=
  let s1 := { s0 with rtc := { s0.rtc with bootCount := s0.rtc.bootCount + 1 } }
  let s2 := ledBlinkS 1 200 s1
  let s3 := { s2 with trace := s2.trace ++ [Action.mount] }
  if e.sensorDeviceCount = 0 then
    goToSleep e (ledBlinkS 5 50 (logMessage e LogMsg.noSensor s3))
  else
    let cw := connectWiFi e s3
    if cw.1 then
      let s4 :=
        if !cw.2.rtc.timeSynced || cw.2.rtc.bootCount % NTP_SYNC_INTERVAL_BOOTS = 0 then
          (syncTime e cw.2).2
        else cw.2
      let rt := readTemperature e s4
      match rt.1 with
      | some t =>
        let ts := getTimestamp e rt.2.rtc.bootCount
        let s5 := storeReading e ts t rt.2
        let sd := sendToServer e t ts s5
        goToSleep e (if sd.1 then ledBlinkS 1 100 sd.2 else ledBlinkS 3 50 sd.2)
      | none => goToSleep e (ledBlinkS 5 50 rt.2)
    else
      let s4 := logMessage e LogMsg.noWifiStoringLocally cw.2
      let rt := readTemperature e s4
      let s5 :=
        match rt.1 with
        | some t =>
          logMessage e (LogMsg.storedLocally t)
            (storeReading e (getTimestamp e rt.2.rtc.bootCount) t rt.2)
        | none => rt.2
      goToSleep e (ledBlinkS 3 50 s5)

/-- The machine state right after a cold start (full power loss): RTC memory
zeroed, data file not yet created, empty log. -/
def sysCold : Sys :=
  { rtc := { bootCount := 0, timeSynced := false },
    dataFile := none, logFile := [], serial := [], trace := [] }

/-- One further wake cycle: RAM (serial buffer, cycle trace) starts fresh,
RTC memory and the flash files persist, then `setup` runs. -/
def nextSys (e : Env) (s : Sys) : Sys :=
  setup e { s with serial := [], trace := [] }

/-- Run a sequence of wake cycles, one `Env` oracle per cycle, from `s`. -/
def runFrom (s : Sys) (envs : List Env) : Sys :=
  envs.foldl (fun acc e => nextSys e acc) s

/-- Run a sequence of wake cycles from a cold start. -/
def run (envs : List Env) : Sys :=
  runFrom sysCold envs

/-- Sync fires on wake `k` (1-indexed) of a run: cycle `k`'s trace contains
the `configTime` call that `syncTime` opens with. -/
def syncFiredOnWake (envs : List Env) (k : Nat) : Prop :=
  Action.ntpConfig ∈ (run (envs.take k)).trace

/-- An environment in which the happy path is reached and an invoked sync
succeeds at once: a sensor is detected, the network join succeeds, and the
first NTP poll already resolves. -/
def GoodEnv (e : Env) : Prop :=
  e.sensorDeviceCount ≠ 0 ∧ e.wifiConnects = true ∧ e.ntpPollOk 0 = true

/-! ### Field-effect lemmas for the components -/

@[simp] theorem logMessage_rtc (e : Env) (m : LogMsg) (s : Sys) :
    (logMessage e m s).rtc = s.rtc := by
  unfold logMessage; split <;> rfl

@[simp] theorem logMessage_dataFile (e : Env) (m : LogMsg) (s : Sys) :
    (logMessage e m s).dataFile = s.dataFile := by
  unfold logMessage; split <;> rfl

@[simp] theorem logMessage_serial (e : Env) (m : LogMsg) (s : Sys) :
    (logMessage e m s).serial = s.serial ++ [m] := by
  unfold logMessage; split <;> rfl

@[simp] theorem logMessage_trace (e : Env) (m : LogMsg) (s : Sys) :
    (logMessage e m s).trace =
      s.trace ++ (if e.logOpenOk then [Action.logAppend m] else []) := by
  unfold logMessage; split <;> simp_all

@[simp] theorem ledBlinkS_rtc (n d : Nat) (s : Sys) : (ledBlinkS n d s).rtc = s.rtc := rfl

@[simp] theorem ledBlinkS_dataFile (n d : Nat) (s : Sys) :
    (ledBlinkS n d s).dataFile = s.dataFile := rfl

@[simp] theorem ledBlinkS_serial (n d : Nat) (s : Sys) : (ledBlinkS n d s).serial = s.serial := rfl

@[simp] theorem ledBlinkS_trace (n d : Nat) (s : Sys) :
    (ledBlinkS n d s).trace = s.trace ++ [Action.blink n d] := rfl

@[simp] theorem goToSleep_rtc (e : Env) (s : Sys) : (goToSleep e s).rtc = s.rtc := by
  unfold goToSleep; simp

@[simp] theorem goToSleep_dataFile (e : Env) (s : Sys) :
    (goToSleep e s).dataFile = s.dataFile := by
  unfold goToSleep; simp

@[simp] theorem goToSleep_serial (e : Env) (s : Sys) :
    (goToSleep e s).serial = s.serial ++ [LogMsg.sleeping READING_INTERVAL_SEC] := by
  unfold goToSleep; simp

@[simp] theorem goToSleep_trace (e : Env) (s : Sys) :
    (goToSleep e s).trace =
      (s.trace ++ (if e.logOpenOk then [Action.logAppend (LogMsg.sleeping READING_INTERVAL_SEC)] else []))
        ++ [Action.sleep] := by
  unfold goToSleep; simp

@[simp] theorem connectWiFi_rtc (e : Env) (s : Sys) : (connectWiFi e s).2.rtc = s.rtc := by
  unfold connectWiFi; split
  · rfl
  · split <;> simp

@[simp] theorem connectWiFi_dataFile (e : Env) (s : Sys) :
    (connectWiFi e s).2.dataFile = s.dataFile := by
  unfold connectWiFi; split
  · rfl
  · split <;> simp

theorem connectWiFi_fst (e : Env) (s : Sys) :
    (connectWiFi e s).1 = (e.alreadyConnected || e.wifiConnects) := by
  unfold connectWiFi; split <;> rename_i h
  · simp [h]
  · simp only [Bool.not_eq_true] at h
    split <;> simp_all

@[simp] theorem readTemperature_rtc (e : Env) (s : Sys) :
    (readTemperature e s).2.rtc = s.rtc := by
  unfold readTemperature; dsimp only; split
  · simp
  · split <;> simp

@[simp] theorem readTemperature_dataFile (e : Env) (s : Sys) :
    (readTemperature e s).2.dataFile = s.dataFile := by
  unfold readTemperature; dsimp only; split
  · simp
  · split <;> simp

@[simp] theorem storeReading_rtc (e : Env) (ts : String) (t : Temp) (s : Sys) :
    (storeReading e ts t s).rtc = s.rtc := by
  unfold storeReading; split <;> simp

@[simp] theorem sendToServer_rtc (e : Env) (t : Temp) (ts : String) (s : Sys) :
    (sendToServer e t ts s).2.rtc = s.rtc := by
  unfold sendToServer; split <;> simp

@[simp] theorem sendToServer_dataFile (e : Env) (t : Temp) (ts : String) (s : Sys) :
    (sendToServer e t ts s).2.dataFile = s.dataFile := by
  unfold sendToServer; split <;> simp

@[simp] theorem syncTime_bootCount (e : Env) (s : Sys) :
    (syncTime e s).2.rtc.bootCount = s.rtc.bootCount := by
  unfold syncTime; dsimp only; split <;> simp

@[simp] theorem syncTime_dataFile (e : Env) (s : Sys) :
    (syncTime e s).2.dataFile = s.dataFile := by
  unfold syncTime; dsimp only; split <;> simp

theorem syncTime_timeSynced_mono (e : Env) (s : Sys) (h : s.rtc.timeSynced = true) :
    (syncTime e s).2.rtc.timeSynced = true := by
  unfold syncTime; dsimp only; split <;> simp [h]

/-! ### The `syncTime` retry loop -/

theorem syncLoopAux_le (poll : Nat → Bool) (fuel r : Nat) (hr : r ≤ 10) :
    syncLoopAux poll fuel r ≤ 10 := by
  induction fuel generalizing r with
  | zero => simpa [syncLoopAux] using hr
  | succ fuel ih =>
    unfold syncLoopAux
    split
    · exact hr
    · split
      · exact ih _ (by omega)
      · exact hr

theorem syncLoopAux_of_fail (poll : Nat → Bool) (hfail : ∀ k, k < 10 → poll k = false)
    (fuel r : Nat) (hr : r ≤ 10) (hfuel : 10 - r < fuel) :
    syncLoopAux poll fuel r = 10 := by
  induction fuel generalizing r with
  | zero => omega
  | succ fuel ih =>
    unfold syncLoopAux
    split <;> rename_i hp
    · rcases Nat.lt_or_ge r 10 with h | h
      · rw [hfail r h] at hp; exact absurd hp (by simp)
      · omega
    · split <;> rename_i h10
      · exact ih (r + 1) (by omega) (by omega)
      · omega

theorem syncLoopAux_of_succ (poll : Nat → Bool) (fuel r k : Nat) (hrk : r ≤ k)
    (hk : k < 10) (hp : poll k = true) (hfuel : k - r < fuel) :
    syncLoopAux poll fuel r < 10 := by
  induction fuel generalizing r with
  | zero => omega
  | succ fuel ih =>
    unfold syncLoopAux
    split <;> rename_i hpr
    · omega
    · rcases Nat.eq_or_lt_of_le hrk with h | h
      · subst h; rw [hp] at hpr; exact absurd hpr (by simp)
      · have : r < 10 := by omega
        simp only [this, if_true]
        exact ih (r + 1) (by omega) (by omega)

/-! ### Projections pushed through `if` -/

@[simp] theorem ite_Sys_rtc (c : Prop) [Decidable c] (a b : Sys) :
    (if c then a else b).rtc = if c then a.rtc else b.rtc := by split <;> rfl

@[simp] theorem ite_Sys_dataFile (c : Prop) [Decidable c] (a b : Sys) :
    (if c then a else b).dataFile = if c then a.dataFile else b.dataFile := by split <;> rfl

@[simp] theorem ite_Sys_serial (c : Prop) [Decidable c] (a b : Sys) :
    (if c then a else b).serial = if c then a.serial else b.serial := by split <;> rfl

@[simp] theorem ite_Rtc_bootCount (c : Prop) [Decidable c] (a b : Rtc) :
    (if c then a else b).bootCount = if c then a.bootCount else b.bootCount := by split <;> rfl

@[simp] theorem ite_Rtc_timeSynced (c : Prop) [Decidable c] (a b : Rtc) :
    (if c then a else b).timeSynced = if c then a.timeSynced else b.timeSynced := by
  split <;> rfl

/-! ### `setup`-level lemmas -/

theorem setup_bootCount (e : Env) (s : Sys) :
    (setup e s).rtc.bootCount = s.rtc.bootCount + 1 := by
  unfold setup
  dsimp only
  split
  · simp
  · split
    · split <;> simp
    · split <;> simp

@[simp] theorem syncTime_timeSynced (e : Env) (s : Sys) :
    (syncTime e s).2.rtc.timeSynced =
      (s.rtc.timeSynced || decide (syncLoopAux e.ntpPollOk 11 0 < 10)) := by
  unfold syncTime
  dsimp only
  split <;> rename_i h <;> simp [h]

theorem setup_timeSynced_mono (e : Env) (s : Sys) (h : s.rtc.timeSynced = true) :
    (setup e s).rtc.timeSynced = true := by
  unfold setup
  dsimp only
  split
  · simp [h]
  · split
    · split <;> simp [h]
    · split <;> simp [h]

theorem goToSleep_trace_getLast (e : Env) (s : Sys) :
    (goToSleep e s).trace.getLast? = some Action.sleep := by
  unfold goToSleep
  dsimp only
  exact List.getLast?_concat _

theorem setup_trace_getLast (e : Env) (s : Sys) :
    (setup e s).trace.getLast? = some Action.sleep := by
  unfold setup
  dsimp only
  split
  · exact goToSleep_trace_getLast e _
  · split
    · split
      · exact goToSleep_trace_getLast e _
      · exact goToSleep_trace_getLast e _
    · exact goToSleep_trace_getLast e _

/-! ### Where `ntpConfig` can enter the trace: only through `syncTime` -/

@[simp] theorem mem_ite_list {α : Type} (c : Prop) [Decidable c] (a : α) (l1 l2 : List α) :
    (a ∈ if c then l1 else l2) ↔ (if c then a ∈ l1 else a ∈ l2) := by
  split <;> rfl

@[simp] theorem ite_Sys_trace (c : Prop) [Decidable c] (a b : Sys) :
    (if c then a else b).trace = if c then a.trace else b.trace := by split <;> rfl

@[simp] theorem ntp_mem_logMessage (e : Env) (m : LogMsg) (s : Sys) :
    Action.ntpConfig ∈ (logMessage e m s).trace ↔ Action.ntpConfig ∈ s.trace := by
  by_cases hl : e.logOpenOk <;> simp [hl]

@[simp] theorem ntp_mem_ledBlinkS (n d : Nat) (s : Sys) :
    Action.ntpConfig ∈ (ledBlinkS n d s).trace ↔ Action.ntpConfig ∈ s.trace := by
  simp

@[simp] theorem ntp_mem_goToSleep (e : Env) (s : Sys) :
    Action.ntpConfig ∈ (goToSleep e s).trace ↔ Action.ntpConfig ∈ s.trace := by
  by_cases hl : e.logOpenOk <;> simp [hl]

@[simp] theorem ntp_mem_storeReading (e : Env) (ts : String) (t : Temp) (s : Sys) :
    Action.ntpConfig ∈ (storeReading e ts t s).trace ↔ Action.ntpConfig ∈ s.trace := by
  unfold storeReading
  dsimp only
  split
  · simp
  · simp

@[simp] theorem ntp_mem_readTemperature (e : Env) (s : Sys) :
    Action.ntpConfig ∈ (readTemperature e s).2.trace ↔ Action.ntpConfig ∈ s.trace := by
  unfold readTemperature
  dsimp only
  split
  · simp
  · split <;> simp

@[simp] theorem ntp_mem_sendToServer (e : Env) (t : Temp) (ts : String) (s : Sys) :
    Action.ntpConfig ∈ (sendToServer e t ts s).2.trace ↔ Action.ntpConfig ∈ s.trace := by
  unfold sendToServer
  dsimp only
  split <;> simp

@[simp] theorem ntp_mem_connectWiFi (e : Env) (s : Sys) :
    Action.ntpConfig ∈ (connectWiFi e s).2.trace ↔ Action.ntpConfig ∈ s.trace := by
  unfold connectWiFi
  dsimp only
  split
  · rfl
  · split <;> by_cases hl : e.logOpenOk <;> simp [hl]

@[simp] theorem ntp_mem_syncTime (e : Env) (s : Sys) :
    Action.ntpConfig ∈ (syncTime e s).2.trace := by
  unfold syncTime
  dsimp only
  split <;> by_cases hl : e.logOpenOk <;> simp [hl]

/-- When the first NTP poll already succeeds the retry loop exits at once. -/
theorem syncLoopAux_first (poll : Nat → Bool) (h : poll 0 = true) :
    syncLoopAux poll 11 0 = 0 := by
  unfold syncLoopAux
  simp [h]

/-- In a `GoodEnv` cycle, `syncTime` is invoked exactly when the source
condition `!timeSynced || bootCount % NTP_SYNC_INTERVAL_BOOTS == 0` holds for
the already-incremented wake counter. -/
theorem setup_ntp_mem (e : Env) (s : Sys) (hg : GoodEnv e) :
    (Action.ntpConfig ∈ (setup e s).trace ↔
      Action.ntpConfig ∈ s.trace ∨ s.rtc.timeSynced = false ∨
        (s.rtc.bootCount + 1) % NTP_SYNC_INTERVAL_BOOTS = 0) := by
  obtain ⟨h1, h2, h3⟩ := hg
  unfold setup
  dsimp only
  rw [if_neg h1]
  rw [connectWiFi_fst, h2]
  simp only [Bool.or_true, if_true]
  split <;> (try split) <;> (try split) <;> simp_all

/-- In a `GoodEnv` cycle the persistent time-synced flag always ends up true:
either it already was, or the sync condition fires and the first poll
succeeds. -/
theorem setup_timeSynced_good (e : Env) (s : Sys) (hg : GoodEnv e) :
    (setup e s).rtc.timeSynced = true := by
  obtain ⟨h1, h2, h3⟩ := hg
  unfold setup
  dsimp only
  rw [if_neg h1]
  rw [connectWiFi_fst, h2]
  simp only [Bool.or_true, if_true]
  split <;> (try split) <;> (try split) <;> simp_all [syncLoopAux_first _ h3]

/-! ### Multi-cycle runs -/

@[simp] theorem runFrom_nil (s : Sys) : runFrom s [] = s := rfl

@[simp] theorem runFrom_cons (s : Sys) (e : Env) (envs : List Env) :
    runFrom s (e :: envs) = runFrom (nextSys e s) envs := rfl

@[simp] theorem nextSys_rtc_bootCount (e : Env) (s : Sys) :
    (nextSys e s).rtc.bootCount = s.rtc.bootCount + 1 := by
  unfold nextSys
  rw [setup_bootCount]

theorem runFrom_bootCount (envs : List Env) (s : Sys) :
    (runFrom s envs).rtc.bootCount = s.rtc.bootCount + envs.length := by
  induction envs generalizing s with
  | nil => simp
  | cons e es ih =>
    rw [runFrom_cons, ih, nextSys_rtc_bootCount]
    simp
    omega

theorem runFrom_timeSynced_good (envs : List Env) (s : Sys)
    (hg : ∀ e ∈ envs, GoodEnv e) (hne : envs ≠ []) :
    (runFrom s envs).rtc.timeSynced = true := by
  induction envs generalizing s with
  | nil => exact absurd rfl hne
  | cons e es ih =>
    rw [runFrom_cons]
    cases es with
    | nil =>
      exact setup_timeSynced_good e _ (hg e (by simp))
    | cons e' es' =>
      exact ih _ (fun x hx => hg x (List.mem_cons_of_mem e hx)) (by simp)

theorem run_take_succ (envs : List Env) (k : Nat) (hk : k < envs.length) :
    run (envs.take (k + 1)) = nextSys envs[k] (run (envs.take k)) := by
  unfold run runFrom
  rw [← List.take_concat_get' envs k hk, List.foldl_append]
  rfl

theorem runFrom_timeSynced_mono (envs : List Env) (s : Sys) (h : s.rtc.timeSynced = true) :
    (runFrom s envs).rtc.timeSynced = true := by
  induction envs generalizing s with
  | nil => simpa using h
  | cons e es ih =>
    rw [runFrom_cons]
    exact ih _ (setup_timeSynced_mono e _ h)

theorem run_bootCount (envs : List Env) : (run envs).rtc.bootCount = envs.length := by
  unfold run
  rw [runFrom_bootCount]
  simp [sysCold]

theorem run_timeSynced_good (envs : List Env) (hg : ∀ e ∈ envs, GoodEnv e)
    (hne : envs ≠ []) : (run envs).rtc.timeSynced = true :=
  runFrom_timeSynced_good envs sysCold hg hne

/-- Specialisation of `setup_ntp_mem` to a fresh wake (`nextSys` resets the
per-cycle trace before `setup` runs). -/
theorem nextSys_ntp_mem (e : Env) (s : Sys) (hg : GoodEnv e) :
    (Action.ntpConfig ∈ (nextSys e s).trace ↔
      s.rtc.timeSynced = false ∨ (s.rtc.bootCount + 1) % NTP_SYNC_INTERVAL_BOOTS = 0) := by
  unfold nextSys
  rw [setup_ntp_mem _ _ hg]
  simp

/-- On a run of `GoodEnv` cycles from cold start, sync fires on wake `k`
exactly when `k = 1` or `k` is a multiple of the resync interval. -/
theorem run_good_syncFired (envs : List Env) (hg : ∀ e ∈ envs, GoodEnv e)
    (k : Nat) (hk1 : 1 ≤ k) (hk2 : k ≤ envs.length) :
    syncFiredOnWake envs k ↔ (k = 1 ∨ k % NTP_SYNC_INTERVAL_BOOTS = 0) := by
  obtain ⟨j, rfl⟩ : ∃ j, k = j + 1 := ⟨k - 1, by omega⟩
  have hj : j < envs.length := by omega
  have hgj : GoodEnv envs[j] := hg _ (List.getElem_mem hj)
  have hgtake : ∀ e ∈ envs.take j, GoodEnv e := fun e he => hg e (List.take_subset j envs he)
  have hbc : (run (envs.take j)).rtc.bootCount = j := by
    rw [run_bootCount, List.length_take]
    omega
  unfold syncFiredOnWake
  rw [run_take_succ envs j hj, nextSys_ntp_mem _ _ hgj, hbc]
  cases Nat.eq_zero_or_pos j with
  | inl hz =>
    subst hz
    have h0 : (run (envs.take 0)).rtc.timeSynced = false := rfl
    rw [h0]
    simp [NTP_SYNC_INTERVAL_BOOTS]
  | inr hpos =>
    have htake_ne : envs.take j ≠ [] := by
      intro h
      have hlen : (envs.take j).length = 0 := by rw [h]; rfl
      rw [List.length_take] at hlen
      omega
    rw [run_timeSynced_good _ hgtake htake_ne]
    simp only [NTP_SYNC_INTERVAL_BOOTS]
    constructor
    · rintro (h | h)
      · exact absurd h (by simp)
      · exact Or.inr h
    · rintro (h | h)
      · omega
      · exact Or.inr h

/-! ### Component-level facts used by the claims -/

/-- `true` exactly on the two sensor-error log lines `readTemperature` can
emit ("device disconnected", "reading out of range"). -/
def isSensorError : LogMsg → Bool
  | .sensorDisconnected => true
  | .sensorOutOfRange _ => true
  | _ => false

/-- The data rows (excluding the header) of the CSV data file. -/
def dataRows (o : Option (List CsvLine)) : List CsvLine :=
  (o.getD []).filter CsvLine.isRow

theorem readTemperature_valid (e : Env) (s : Sys) (h5 : -55 ≤ e.rawTemp)
    (h6 : e.rawTemp ≤ 125) : readTemperature e s = (some e.rawTemp, s) := by
  have hne : e.rawTemp ≠ DEVICE_DISCONNECTED_C := by
    intro hEq
    rw [hEq] at h5
    norm_num [DEVICE_DISCONNECTED_C] at h5
  unfold readTemperature
  dsimp only
  rw [if_neg hne, if_neg (not_or.mpr ⟨not_lt.mpr h5, not_lt.mpr h6⟩)]

theorem storeReading_ok (e : Env) (ts : String) (t : Temp) (s : Sys)
    (h : e.dataOpenOk = true) :
    storeReading e ts t s =
      { s with
        dataFile := some (s.dataFile.getD [] ++
          ((if s.dataFile.isSome then [] else [CsvLine.header]) ++ [CsvLine.row ts t])),
        trace := s.trace ++ [Action.dataWrite
          ((if s.dataFile.isSome then [] else [CsvLine.header]) ++ [CsvLine.row ts t])] } := by
  unfold storeReading
  dsimp only
  rw [if_pos h]

theorem storeReading_some (e : Env) (ts : String) (t : Temp) (s : Sys)
    (h : e.dataOpenOk = true) (rows : List CsvLine) (hd : s.dataFile = some rows) :
    (storeReading e ts t s).dataFile = some (rows ++ [CsvLine.row ts t]) := by
  rw [storeReading_ok e ts t s h, hd]
  simp

theorem storeReading_foldl (e : Env) (h : e.dataOpenOk = true)
    (ps : List (String × Temp)) :
    ∀ (s : Sys) (rows : List CsvLine), s.dataFile = some rows →
      (ps.foldl (fun acc p => storeReading e p.1 p.2 acc) s).dataFile =
        some (rows ++ ps.map fun p => CsvLine.row p.1 p.2) := by
  induction ps with
  | nil => intro s rows hd; simpa using hd
  | cons p ps ih =>
    intro s rows hd
    rw [List.foldl_cons]
    rw [ih (storeReading e p.1 p.2 s) (rows ++ [CsvLine.row p.1 p.2])
      (storeReading_some e p.1 p.2 s h rows hd)]
    simp

/-! ### Concrete oracles for witnesses and counterexamples -/

/-- A fully healthy cycle oracle: sensor present, WiFi joins, first NTP poll
resolves, clock available, sensor reads 20 degC, both file opens succeed,
server answers 200. -/
def envBase : Env :=
  { sensorDeviceCount := 1, alreadyConnected := false, wifiConnects := true,
    ntpPollOk := fun _ => true, clockAvailable := true,
    clockString := "2026-02-17T10:00:00", rawTemp := 20, dataOpenOk := true,
    logOpenOk := true, httpResponseCode := 200 }

/-- Healthy cycle except the WiFi join times out. -/
def envNoWifi : Env := { envBase with wifiConnects := false }

/-- Healthy cycle except no sensor is detected on the bus. -/
def envNoSensor : Env := { envBase with sensorDeviceCount := 0 }

/-- Healthy cycle except every NTP poll fails. -/
def envSyncFail : Env := { envBase with ntpPollOk := fun _ => false }

/-- Healthy cycle except the server answers 404. -/
def envHttp404 : Env := { envBase with httpResponseCode := 404 }

/-- Healthy cycle except the sensor reports 130 degC (out of range). -/
def envHot : Env := { envBase with rawTemp := 130 }

/-- A state whose persistent time-synced flag is already set. -/
def sysSynced : Sys :=
  { rtc := { bootCount := 5, timeSynced := true },
    dataFile := none, logFile := [], serial := [], trace := [] }

/-! ## The claims -/

/-- C2: the persistent wake counter is incremented exactly once per wake
cycle (the increment is the first state change of `setup`, before any other
step); across successive wake cycles it strictly increases by 1 (after `n`
wakes from cold start it equals `n`), and it is reset to 0 only by a full
power loss (`sysCold`), never by any operation within a cycle. -/
theorem wake_counter_increments_once_per_cycle :
    sysCold.rtc.bootCount = 0 ∧
    (∀ (e : Env) (s : Sys), (setup e s).rtc.bootCount = s.rtc.bootCount + 1) ∧
    (∀ envs : List Env, (run envs).rtc.bootCount = envs.length) :=
  ⟨rfl, setup_bootCount, run_bootCount⟩

/-- C9: every execution of the wake-cycle orchestrator `setup`, whatever the
environment does (sensor missing, invalid reading, network join failure,
send failure, storage failure), ends with the `sleep` action of `goToSleep`:
the last action of every cycle trace is entering deep sleep. -/
theorem every_cycle_ends_in_sleep (e : Env) (s : Sys) :
    (setup e s).trace.getLast? = some Action.sleep :=
  setup_trace_getLast e s

/-- C10: the persistent `timeSynced` flag is monotone within a powered
session: no wake cycle ever takes it from `true` back to `false` (the only
assignment in the program is to `true`, in the success branch of
`syncTime`), so once set it stays set across any sequence of further wake
cycles. -/
theorem timeSynced_flag_monotone :
    (∀ (e : Env) (s : Sys), s.rtc.timeSynced = true → (setup e s).rtc.timeSynced = true) ∧
    (∀ (envs : List Env) (s : Sys), s.rtc.timeSynced = true →
      (runFrom s envs).rtc.timeSynced = true) :=
  ⟨setup_timeSynced_mono, fun envs s h => runFrom_timeSynced_mono envs s h⟩

/-- Witness for C10 at a concrete input: a state with the flag set keeps it
set across a further wake cycle. -/
theorem timeSynced_flag_monotone_witness :
    sysSynced.rtc.timeSynced = true ∧
    (setup envSyncFail sysSynced).rtc.timeSynced = true :=
  ⟨rfl, timeSynced_flag_monotone.1 envSyncFail sysSynced rfl⟩

/-- C3: `sendToServer` returns true iff the transport returns HTTP status
exactly 200; for any other status (or a transport fault, which the HTTP
client reports as a negative code) it returns false, logs a `serverError`
line carrying the response code, and adds no `sent` success line to the
log. -/
theorem send_success_iff_http200 (e : Env) (t : Temp) (ts : String) (s : Sys) :
    ((sendToServer e t ts s).1 = true ↔ e.httpResponseCode = 200) ∧
    (e.httpResponseCode ≠ 200 →
      (sendToServer e t ts s).1 = false ∧
      (sendToServer e t ts s).2.serial = s.serial ++ [LogMsg.serverError e.httpResponseCode] ∧
      (∀ (t2 : Temp) (b : Nat), LogMsg.sent t2 b ∈ (sendToServer e t ts s).2.serial →
        LogMsg.sent t2 b ∈ s.serial)) := by
  unfold sendToServer
  dsimp only
  split <;> rename_i h
  · simp [h]
  · simp [h]

/-- Witness for C3 at a concrete input: a 404 response yields failure and an
error line, not a success line. -/
theorem send_success_iff_http200_witness :
    envHttp404.httpResponseCode ≠ 200 ∧
    (sendToServer envHttp404 20 "ts" sysCold).1 = false ∧
    (sendToServer envHttp404 20 "ts" sysCold).2.serial = [LogMsg.serverError 404] := by
  have h := (send_success_iff_http200 envHttp404 20 "ts" sysCold).2 (by decide)
  exact ⟨by decide, h.1, h.2.1⟩

/-- C4 counterexample: the claim says `syncTime` returns a bool (true on
success, false on exhaustion).  In the code `syncTime` is `void`: its return
value is the unit value, identical on a run whose first poll succeeds and on
a run whose every poll fails, even though the two runs differ observably
(one sets the persistent flag, the other leaves it clear).  No boolean
success indicator is returned. -/
theorem syncTime_returns_no_bool :
    (syncTime envBase sysCold).1 = (syncTime envSyncFail sysCold).1 ∧
    (syncTime envBase sysCold).2.rtc.timeSynced = true ∧
    (syncTime envSyncFail sysCold).2.rtc.timeSynced = false :=
  ⟨rfl, rfl, rfl⟩

/-- C4 (amended): `syncTime` returns no value (the C++ function is `void`);
it polls for a locally-resolvable time with bounded retries — the loop's
retry counter never exceeds 10, the polls are 500 ms apart; if any of the 10
attempts within the bound succeeds it sets the persistent `timeSynced` flag
and logs the resulting timestamp, and if all 10 fail it logs a sync-failure
message and leaves the flag exactly as it was. -/
theorem syncTime_bounded_retry_contract (e : Env) (s : Sys) :
    syncLoopAux e.ntpPollOk 11 0 ≤ 10 ∧
    ((∃ k, k < 10 ∧ e.ntpPollOk k = true) →
      (syncTime e s).2.rtc.timeSynced = true ∧
      (syncTime e s).2.serial = s.serial ++ [LogMsg.timeSyncedAt e.clockString]) ∧
    ((∀ k, k < 10 → e.ntpPollOk k = false) →
      (syncTime e s).2.rtc.timeSynced = s.rtc.timeSynced ∧
      (syncTime e s).2.serial = s.serial ++ [LogMsg.ntpFailed]) := by
  refine ⟨syncLoopAux_le _ _ _ (by omega), ?_, ?_⟩
  · rintro ⟨k, hk, hp⟩
    have hlt : syncLoopAux e.ntpPollOk 11 0 < 10 :=
      syncLoopAux_of_succ e.ntpPollOk 11 0 k (by omega) hk hp (by omega)
    unfold syncTime
    dsimp only
    rw [if_pos hlt]
    simp
  · intro hfail
    have h10 : syncLoopAux e.ntpPollOk 11 0 = 10 :=
      syncLoopAux_of_fail e.ntpPollOk hfail 11 0 (by omega) (by omega)
    unfold syncTime
    dsimp only
    rw [if_neg (by omega)]
    simp

/-- Witness for the amended C4 at a concrete input: with a first poll that
succeeds, the flag is set. -/
theorem syncTime_bounded_retry_contract_witness :
    (∃ k, k < 10 ∧ envBase.ntpPollOk k = true) ∧
    (syncTime envBase sysCold).2.rtc.timeSynced = true :=
  ⟨⟨0, by decide, rfl⟩,
    ((syncTime_bounded_retry_contract envBase sysCold).2.1 ⟨0, by decide, rfl⟩).1⟩

/-- C1 counterexample: the claim says that on every execution trace from a
cold start, sync fires on wake #1.  On the trace whose single wake fails to
join WiFi, wake #1 runs to completion (the counter reads 1) but performs no
time-sync exchange at all: the sync condition is only reached after a
successful network connect. -/
theorem sync_schedule_counterexample :
    (run [envNoWifi]).rtc.bootCount = 1 ∧ ¬ syncFiredOnWake [envNoWifi] 1 := by
  constructor
  · rfl
  · unfold syncFiredOnWake
    decide

/-- C1 (amended): provided the sensor is detected, the network connect
succeeds on every wake and every invoked sync succeeds at once (`GoodEnv`),
time-sync fires on wake #1 and thereafter exactly when the wake counter is a
multiple of the resync interval: with `NTP_SYNC_INTERVAL_BOOTS = 20`, on
wakes {1, 20, 40, ...} and on no wake in {2..19, 21..39, ...}.  (In general
sync is also re-attempted on later wakes whenever time has never been
successfully synced, and is skipped entirely on wakes that fail earlier —
the behaviour the counterexample exhibits.) -/
theorem sync_schedule_amended (envs : List Env) (hg : ∀ e ∈ envs, GoodEnv e)
    (k : Nat) (hk1 : 1 ≤ k) (hk2 : k ≤ envs.length) :
    syncFiredOnWake envs k ↔ (k = 1 ∨ k % NTP_SYNC_INTERVAL_BOOTS = 0) :=
  run_good_syncFired envs hg k hk1 hk2

/-- Witness for the amended C1 at a concrete input: on a two-wake healthy
run, sync does not fire on wake #2. -/
theorem sync_schedule_amended_witness :
    (∀ e ∈ [envBase, envBase], GoodEnv e) ∧
    1 ≤ 2 ∧ 2 ≤ ([envBase, envBase] : List Env).length ∧
    ¬ syncFiredOnWake [envBase, envBase] 2 := by
  have hb : GoodEnv envBase := ⟨by decide, rfl, rfl⟩
  have hgood : ∀ e ∈ [envBase, envBase], GoodEnv e := by
    intro e he
    simp at he
    subst he
    exact hb
  refine ⟨hgood, by omega, by simp, ?_⟩
  intro hf
  have h2 := (sync_schedule_amended [envBase, envBase] hgood 2 (by omega) (by simp)).mp hf
  rcases h2 with h | h
  · omega
  · revert h
    decide

/-- C5 counterexample: the claim asserts the no-sensor cycle performs no
storage activity.  On a concrete cold-start cycle with no sensor detected
(and the log-file open succeeding, as it normally does) the cycle appends
the sensor-error line to the log file on flash — storage activity. -/
theorem no_sensor_cycle_counterexample :
    envNoSensor.sensorDeviceCount = 0 ∧
    Action.logAppend LogMsg.noSensor ∈ (setup envNoSensor sysCold).trace := by
  constructor
  · rfl
  · decide

/-- C5 (amended): when no sensor device is detected, the cycle signals
exactly the five-fast-blink error code and transitions directly to Sleep,
with no network activity and no data-file activity — nothing is appended to
the data file and no connect attempt, HTTP POST or NTP exchange is made; the
only writes of the cycle are the sensor-error line and the sleep line
appended to the log. -/
theorem no_sensor_cycle_effects (e : Env) (s : Sys) (hs : e.sensorDeviceCount = 0)
    (ht : s.trace = []) :
    (setup e s).trace.filter Action.isBlink = [Action.blink 1 200, Action.blink 5 50] ∧
    (∀ ls, Action.dataWrite ls ∉ (setup e s).trace) ∧
    (setup e s).dataFile = s.dataFile ∧
    Action.connectAttempt ∉ (setup e s).trace ∧
    (∀ (t2 : Temp) (ts : String), Action.httpPost t2 ts ∉ (setup e s).trace) ∧
    Action.ntpConfig ∉ (setup e s).trace ∧
    (setup e s).serial = s.serial ++ [LogMsg.noSensor, LogMsg.sleeping READING_INTERVAL_SEC] ∧
    (setup e s).trace.getLast? = some Action.sleep := by
  refine ⟨?_, ?_, ?_, ?_, ?_, ?_, ?_, setup_trace_getLast e s⟩ <;>
    (unfold setup; dsimp only; rw [if_pos hs]; by_cases hl : e.logOpenOk <;>
      simp [ht, hl, Action.isBlink])

/-- Witness for the amended C5 at a concrete input. -/
theorem no_sensor_cycle_effects_witness :
    envNoSensor.sensorDeviceCount = 0 ∧ sysCold.trace = [] ∧
    (setup envNoSensor sysCold).trace.filter Action.isBlink =
      [Action.blink 1 200, Action.blink 5 50] :=
  ⟨rfl, rfl, (no_sensor_cycle_effects envNoSensor sysCold rfl rfl).1⟩

/-- The full per-cycle trace contribution of `connectWiFi`, by cases on the
oracle. -/
theorem connectWiFi_trace (e : Env) (s : Sys) :
    (connectWiFi e s).2.trace =
      s.trace ++
        (if e.alreadyConnected then [] else
          ((if e.logOpenOk then [Action.logAppend LogMsg.connecting] else []) ++
            [Action.connectAttempt] ++
            (if e.wifiConnects then
              (if e.logOpenOk then [Action.logAppend LogMsg.wifiConnected] else []) ++
                [Action.blink 2 100]
            else
              (if e.logOpenOk then [Action.logAppend LogMsg.wifiTimeout] else [])))) := by
  unfold connectWiFi
  dsimp only
  by_cases ha : e.alreadyConnected <;> by_cases hw : e.wifiConnects <;>
    by_cases hl : e.logOpenOk <;> simp [ha, hw, hl]

/-- C6: when the network join fails, a sensor reading is still taken; if it
is valid, exactly one CSV data row carrying that value (under the cycle's
timestamp) is appended to the data file, no HTTP POST is attempted, the
error signal is the three-fast-blink code (the only blinks of the cycle are
the startup blink and that code), and the cycle ends in Sleep. -/
theorem wifi_fail_stores_locally (e : Env) (s : Sys) (h1 : e.sensorDeviceCount ≠ 0)
    (h2 : e.alreadyConnected = false) (h3 : e.wifiConnects = false)
    (h4 : e.dataOpenOk = true) (h5 : -55 ≤ e.rawTemp) (h6 : e.rawTemp ≤ 125)
    (ht : s.trace = []) :
    dataRows (setup e s).dataFile =
      dataRows s.dataFile ++
        [CsvLine.row (getTimestamp e (s.rtc.bootCount + 1)) e.rawTemp] ∧
    (∀ (t2 : Temp) (ts : String), Action.httpPost t2 ts ∉ (setup e s).trace) ∧
    (setup e s).trace.filter Action.isBlink = [Action.blink 1 200, Action.blink 3 50] ∧
    (setup e s).trace.getLast? = some Action.sleep := by
  refine ⟨?_, ?_, ?_, setup_trace_getLast e s⟩ <;>
    (unfold setup; dsimp only;
     rw [if_neg h1, connectWiFi_fst, h2, h3];
     rw [if_neg (show ¬((false || false : Bool) = true) by decide)];
     rw [readTemperature_valid _ _ h5 h6];
     dsimp only;
     rw [storeReading_ok _ _ _ _ h4])
  · cases hdf : s.dataFile <;>
      simp [dataRows, hdf, CsvLine.isRow]
  · intro t2 ts2
    by_cases hl : e.logOpenOk <;> simp [ht, hl, h2, h3, connectWiFi_trace]
  · by_cases hl : e.logOpenOk <;> simp [ht, hl, h2, h3, connectWiFi_trace, Action.isBlink]

/-- Witness for C6 at a concrete input: WiFi fails, the 20 degC reading ends
up as the single data row of the fresh data file. -/
theorem wifi_fail_stores_locally_witness :
    (envNoWifi.wifiConnects = false ∧ (-55 : ℚ) ≤ envNoWifi.rawTemp ∧
      envNoWifi.rawTemp ≤ 125 ∧ envNoWifi.dataOpenOk = true) ∧
    dataRows (setup envNoWifi sysCold).dataFile =
      [CsvLine.row "2026-02-17T10:00:00" 20] := by
  have h := wifi_fail_stores_locally envNoWifi sysCold (by decide) rfl rfl rfl
    (by norm_num [envNoWifi, envBase]) (by norm_num [envNoWifi, envBase]) rfl
  refine ⟨⟨rfl, by norm_num [envNoWifi, envBase], by norm_num [envNoWifi, envBase], rfl⟩, ?_⟩
  have h1 := h.1
  simpa [dataRows, getTimestamp, envNoWifi, envBase, sysCold] using h1

/-- C7: `storeReading` is idempotent in header emission: starting from a
file that does not exist, N calls (each open succeeding) yield a file with
exactly one header row, written by the first call only, followed by exactly
the N data rows in call order (none of which is a header). -/
theorem storeReading_header_once (e : Env) (he : e.dataOpenOk = true) (s : Sys)
    (h0 : s.dataFile = none) (ps : List (String × Temp)) (hne : ps ≠ []) :
    (ps.foldl (fun acc p => storeReading e p.1 p.2 acc) s).dataFile =
      some (CsvLine.header :: (ps.map fun p => CsvLine.row p.1 p.2)) ∧
    (∀ l ∈ ps.map (fun p => CsvLine.row p.1 p.2), l ≠ CsvLine.header) := by
  constructor
  · cases ps with
    | nil => exact absurd rfl hne
    | cons p ps2 =>
      rw [List.foldl_cons]
      have hfirst : (storeReading e p.1 p.2 s).dataFile =
          some [CsvLine.header, CsvLine.row p.1 p.2] := by
        rw [storeReading_ok _ _ _ _ he]
        simp [h0]
      rw [storeReading_foldl e he ps2 _ _ hfirst]
      simp
  · intro l hl
    rcases List.mem_map.mp hl with ⟨p, hp, rfl⟩
    simp

/-- Witness for C7 at a concrete input: two stores against a fresh file. -/
theorem storeReading_header_once_witness :
    envBase.dataOpenOk = true ∧ sysCold.dataFile = none ∧
    (([("t1", (20 : Temp)), ("t2", 21)] : List (String × Temp)).foldl
        (fun acc p => storeReading envBase p.1 p.2 acc) sysCold).dataFile =
      some [CsvLine.header, CsvLine.row "t1" 20, CsvLine.row "t2" 21] := by
  have h := (storeReading_header_once envBase rfl sysCold rfl
    [("t1", (20 : Temp)), ("t2", 21)] (by simp)).1
  exact ⟨rfl, rfl, by simpa using h⟩

/-- C8: every temperature outside the DS18B20 range (below -55 or above
125 degC) — which includes the disconnected-device sentinel -127 — makes the
sensor read yield an invalid (`none`) reading and log a sensor-error line;
the sentinel logs the device-disconnected line specifically; in-range values
are returned unchanged with no state change. -/
theorem sensor_range_validation (e : Env) (s : Sys) :
    ((e.rawTemp < -55 ∨ 125 < e.rawTemp) →
      (readTemperature e s).1 = none ∧
      ∃ m, isSensorError m = true ∧ (readTemperature e s).2.serial = s.serial ++ [m]) ∧
    (e.rawTemp = DEVICE_DISCONNECTED_C →
      (readTemperature e s).1 = none ∧
      (readTemperature e s).2.serial = s.serial ++ [LogMsg.sensorDisconnected]) ∧
    (-55 ≤ e.rawTemp → e.rawTemp ≤ 125 →
      readTemperature e s = (some e.rawTemp, s)) := by
  refine ⟨?_, ?_, readTemperature_valid e s⟩
  · intro hout
    unfold readTemperature
    dsimp only
    split
    · exact ⟨rfl, LogMsg.sensorDisconnected, rfl, by simp⟩
    · exact ⟨rfl, LogMsg.sensorOutOfRange e.rawTemp, rfl, by simp⟩
  · intro hd
    unfold readTemperature
    dsimp only
    rw [if_pos hd]
    simp

/-- Witness for C8 at a concrete input: a 130 degC reading is rejected. -/
theorem sensor_range_validation_witness :
    (envHot.rawTemp < -55 ∨ 125 < envHot.rawTemp) ∧
    (readTemperature envHot sysCold).1 = none := by
  have hout : envHot.rawTemp < -55 ∨ 125 < envHot.rawTemp :=
    Or.inr (by norm_num [envHot, envBase])
  exact ⟨hout, ((sensor_range_validation envHot sysCold).1 hout).1⟩

end Thermo
